import Mathlib

/-!
Verification of `src/UnityMcpServer/src/tools/manage_animation.py`.

We shallowly embed the Python values and the `manage_animation` tool
function. Python dictionaries are modelled as association lists
`List (String × PyVal)` in insertion order (all keys written by the code
are distinct, so append-on-fresh-key matches Python's insertion
semantics), `None` is `PyVal.none`, Python floats are carried as exact
rationals (the code never computes with them, it only forwards them),
and the collaborator `get_unity_connection().send_command` is an
arbitrary function that either returns a response dictionary or raises
an exception carrying a message string.
-/

/-- A Python runtime value, as far as this module observes it. -/
inductive PyVal : Type where
  | none  : PyVal
  | bool  : Bool → PyVal
  | int   : Int → PyVal
  | float : Rat → PyVal
  | str   : String → PyVal
  | list  : List PyVal → PyVal
  | dict  : List (String × PyVal) → PyVal

/-- Python truthiness (`bool(v)`), used by `if response.get("success"):`. -/
def PyVal.truthy : PyVal → Bool
  | .none => false
  | .bool b => b
  | .int n => n != 0
  | .float q => q != 0
  | .str s => s != ""
  | .list xs => !xs.isEmpty
  | .dict kvs => !kvs.isEmpty

/-- First-match lookup in an association list; for duplicate-free lists
this is exactly Python dictionary key lookup. -/
def lookupStr (kvs : List (String × PyVal)) (k : String) : Option PyVal :=
  match kvs with
  | [] => Option.none
  | (k', v) :: rest => if k' = k then some v else lookupStr rest k

/-- Python `d.get(k, default)`: the stored value when the key is present
(even when that value is `None`), the default otherwise. -/
def dictGet (kvs : List (String × PyVal)) (k : String) (default : PyVal) : PyVal :=
  match lookupStr kvs k with
  | some v => v
  | Option.none => default

/-- The argument list of the `manage_animation` tool: one required
`action` string and thirteen optional parameters, exactly as in the
Python signature. -/
structure AnimationArgs where
  action : String
  name : Option String := Option.none
  path : Option String := Option.none
  target : Option String := Option.none
  frameRate : Option Rat := Option.none
  duration : Option Rat := Option.none
  loop : Option Bool := Option.none
  speed : Option Rat := Option.none
  amplitude : Option Rat := Option.none
  stepHeight : Option Rat := Option.none
  swayAmount : Option Rat := Option.none
  controllerPath : Option String := Option.none
  clips : Option (List String) := Option.none
  curves : Option (List (List (String × PyVal))) := Option.none

/-- One `if x is not None: params[k] = x` step of the Python code:
append the entry when the value was supplied, leave the dictionary
unchanged otherwise. The key is fresh each time in the source, so
appending is Python's dictionary insertion. -/
def addIfSome (p : List (String × PyVal)) (k : String) :
    Option PyVal → List (String × PyVal)
  | some v => p ++ [(k, v)]
  | Option.none => p

/-- The `params` dictionary built by `manage_animation` before
dispatching: `{"action": action}` followed by the thirteen
`if x is not None` insertions, in source order. -/
def buildParams (a : AnimationArgs) : List (String × PyVal) :=
  let p := [("action", PyVal.str a.action)]
  let p := addIfSome p "name" (a.name.map PyVal.str)
  let p := addIfSome p "path" (a.path.map PyVal.str)
  let p := addIfSome p "target" (a.target.map PyVal.str)
  let p := addIfSome p "frameRate" (a.frameRate.map PyVal.float)
  let p := addIfSome p "duration" (a.duration.map PyVal.float)
  let p := addIfSome p "loop" (a.loop.map PyVal.bool)
  let p := addIfSome p "speed" (a.speed.map PyVal.float)
  let p := addIfSome p "amplitude" (a.amplitude.map PyVal.float)
  let p := addIfSome p "stepHeight" (a.stepHeight.map PyVal.float)
  let p := addIfSome p "swayAmount" (a.swayAmount.map PyVal.float)
  let p := addIfSome p "controllerPath" (a.controllerPath.map PyVal.str)
  let p := addIfSome p "clips"
    (a.clips.map (fun xs => PyVal.list (xs.map PyVal.str)))
  let p := addIfSome p "curves"
    (a.curves.map (fun cs => PyVal.list (cs.map PyVal.dict)))
  p

/-- Outcome of the collaborator's `send_command` call: a response
dictionary, or a raised exception carrying `str(e)`. -/
inductive SendResult : Type where
  | ok (response : List (String × PyVal)) : SendResult
  | exn (msg : String) : SendResult

/-- The body of `manage_animation`: build the params, dispatch, then
normalize the response; any exception is caught at the outer boundary
and converted to a failure dictionary. -/
def manage_animation (a : AnimationArgs)
    (send : List (String × PyVal) → SendResult) : List (String × PyVal) :=
  match send (buildParams a) with
  | .exn t =>
      [("success", PyVal.bool false),
       ("message", PyVal.str ("Python error managing animation: " ++ t))]
  | .ok response =>
      if (dictGet response "success" PyVal.none).truthy then
        [("success", PyVal.bool true),
         ("message", dictGet response "message"
            (PyVal.str "Animation operation successful.")),
         ("data", dictGet response "data" PyVal.none)]
      else
        [("success", PyVal.bool false),
         ("message", dictGet response "error"
            (PyVal.str "An unknown error occurred during animation management."))]

/-- A sample argument record used to instantiate theorems at concrete
inputs: only the required `action` is supplied. -/
def exArgs : AnimationArgs := { action := "create_clip" }

/-- The single dictionary entry contributed by one optional parameter:
nothing when absent, one key/value pair when supplied. -/
def optEntry (k : String) (o : Option PyVal) : List (String × PyVal) :=
  o.elim [] (fun v => [(k, v)])

/-- The key contributed by one optional parameter: nothing when absent,
the key alone when supplied (whatever the value). -/
def optKey {α : Type} (k : String) (o : Option α) : List String :=
  o.elim [] (fun _ => [k])

theorem addIfSome_eq_append (p : List (String × PyVal)) (k : String)
    (o : Option PyVal) : addIfSome p k o = p ++ optEntry k o := by
  cases o <;> simp [addIfSome, optEntry]

@[simp] theorem elim_none_some (o : Option PyVal) :
    o.elim Option.none some = o := by
  cases o <;> rfl

@[simp] theorem lookupStr_append (p q : List (String × PyVal)) (k : String) :
    lookupStr (p ++ q) k = (lookupStr p k).elim (lookupStr q k) some := by
  induction p with
  | nil => rfl
  | cons hd tl ih =>
      obtain ⟨k', v⟩ := hd
      simp only [List.cons_append, lookupStr]
      by_cases h : k' = k
      · simp [h]
      · simp [h, ih]

@[simp] theorem lookupStr_optEntry (k k2 : String) (o : Option PyVal) :
    lookupStr (optEntry k o) k2 = if k = k2 then o else Option.none := by
  cases o with
  | none => simp [optEntry, lookupStr]
  | some v => by_cases h : k = k2 <;> simp [optEntry, lookupStr, h]

@[simp] theorem map_fst_optEntry {α : Type} (k : String) (o : Option α)
    (f : α → PyVal) : (optEntry k (o.map f)).map Prod.fst = optKey k o := by
  cases o <;> rfl

/-- Decomposition of the built params dictionary into the mandatory
`action` entry followed by the thirteen optional entries in source
order. -/
theorem buildParams_eq (a : AnimationArgs) :
    buildParams a =
      ("action", PyVal.str a.action) ::
        (optEntry "name" (a.name.map PyVal.str) ++
         optEntry "path" (a.path.map PyVal.str) ++
         optEntry "target" (a.target.map PyVal.str) ++
         optEntry "frameRate" (a.frameRate.map PyVal.float) ++
         optEntry "duration" (a.duration.map PyVal.float) ++
         optEntry "loop" (a.loop.map PyVal.bool) ++
         optEntry "speed" (a.speed.map PyVal.float) ++
         optEntry "amplitude" (a.amplitude.map PyVal.float) ++
         optEntry "stepHeight" (a.stepHeight.map PyVal.float) ++
         optEntry "swayAmount" (a.swayAmount.map PyVal.float) ++
         optEntry "controllerPath" (a.controllerPath.map PyVal.str) ++
         optEntry "clips" (a.clips.map (fun xs => PyVal.list (xs.map PyVal.str))) ++
         optEntry "curves" (a.curves.map (fun cs => PyVal.list (cs.map PyVal.dict)))) := by
  simp [buildParams, addIfSome_eq_append, List.append_assoc]

/-- Claim C1: every optional parameter of `manage_animation` appears in the
built request exactly when the caller supplied it (presence test is
`is not None`, never truthiness), and the supplied value — falsy values
such as `false`, `0`, `0.0`, `""`, `[]` included — is forwarded
verbatim: the lookup of each optional key equals the supplied option
mapped through the identity embedding of its value. -/
theorem buildParams_presence_by_supply (a : AnimationArgs) :
    lookupStr (buildParams a) "name" = a.name.map PyVal.str ∧
    lookupStr (buildParams a) "path" = a.path.map PyVal.str ∧
    lookupStr (buildParams a) "target" = a.target.map PyVal.str ∧
    lookupStr (buildParams a) "frameRate" = a.frameRate.map PyVal.float ∧
    lookupStr (buildParams a) "duration" = a.duration.map PyVal.float ∧
    lookupStr (buildParams a) "loop" = a.loop.map PyVal.bool ∧
    lookupStr (buildParams a) "speed" = a.speed.map PyVal.float ∧
    lookupStr (buildParams a) "amplitude" = a.amplitude.map PyVal.float ∧
    lookupStr (buildParams a) "stepHeight" = a.stepHeight.map PyVal.float ∧
    lookupStr (buildParams a) "swayAmount" = a.swayAmount.map PyVal.float ∧
    lookupStr (buildParams a) "controllerPath" = a.controllerPath.map PyVal.str ∧
    lookupStr (buildParams a) "clips"
      = a.clips.map (fun xs => PyVal.list (xs.map PyVal.str)) ∧
    lookupStr (buildParams a) "curves"
      = a.curves.map (fun cs => PyVal.list (cs.map PyVal.dict)) := by
  simp [buildParams_eq, lookupStr]

/-- Claim C2: the key list of the built request is exactly `action` followed
by the keys of the supplied optional parameters, in source order — the
mandatory key is always present, unsupplied parameters contribute no
key at all (no null placeholder), and no other key appears. -/
theorem buildParams_key_set (a : AnimationArgs) :
    (buildParams a).map Prod.fst =
      "action" ::
        (optKey "name" a.name ++ optKey "path" a.path ++
         optKey "target" a.target ++ optKey "frameRate" a.frameRate ++
         optKey "duration" a.duration ++ optKey "loop" a.loop ++
         optKey "speed" a.speed ++ optKey "amplitude" a.amplitude ++
         optKey "stepHeight" a.stepHeight ++ optKey "swayAmount" a.swayAmount ++
         optKey "controllerPath" a.controllerPath ++ optKey "clips" a.clips ++
         optKey "curves" a.curves) := by
  simp [buildParams_eq, List.append_assoc]

/-- Every result of `manage_animation` takes exactly one of the two
canonical shapes: a failure pair or a success triple. -/
theorem manage_animation_shape (a : AnimationArgs)
    (send : List (String × PyVal) → SendResult) :
    (∃ m, manage_animation a send =
        [("success", PyVal.bool false), ("message", m)]) ∨
    (∃ m d, manage_animation a send =
        [("success", PyVal.bool true), ("message", m), ("data", d)]) := by
  cases hs : send (buildParams a) with
  | exn t =>
      exact Or.inl ⟨PyVal.str ("Python error managing animation: " ++ t),
        by simp [manage_animation, hs]⟩
  | ok resp =>
      cases ht : (dictGet resp "success" PyVal.none).truthy with
      | true =>
          exact Or.inr ⟨dictGet resp "message"
              (PyVal.str "Animation operation successful."),
            dictGet resp "data" PyVal.none,
            by simp [manage_animation, hs, ht]⟩
      | false =>
          exact Or.inl ⟨dictGet resp "error"
              (PyVal.str "An unknown error occurred during animation management."),
            by simp [manage_animation, hs, ht]⟩

/-- Claim C3: whenever the collaborator response's success flag is
truthy, the result is the success triple whose message is the
response's message field when the key is present and the fixed fallback
string otherwise, and whose data is the response's data field verbatim,
with explicit null when the data key is absent; the data key is always
present in the result on success. -/
theorem manage_animation_success_normalization (a : AnimationArgs)
    (resp : List (String × PyVal))
    (h : (dictGet resp "success" PyVal.none).truthy = true) :
    manage_animation a (fun _ => SendResult.ok resp) =
      [("success", PyVal.bool true),
       ("message", dictGet resp "message"
          (PyVal.str "Animation operation successful.")),
       ("data", dictGet resp "data" PyVal.none)] := by
  simp [manage_animation, h]

/-- Witness for C3: a success response with no message and no data
yields the fallback message and an explicit null data value. -/
theorem manage_animation_success_normalization_witness :
    manage_animation exArgs
        (fun _ => SendResult.ok [("success", PyVal.bool true)]) =
      [("success", PyVal.bool true),
       ("message", PyVal.str "Animation operation successful."),
       ("data", PyVal.none)] :=
  manage_animation_success_normalization exArgs
    [("success", PyVal.bool true)] rfl

/-- Claim C4: whenever the collaborator response's success flag is
falsy or absent, the result is the failure pair whose message is the
response's error field when the key is present and the fixed fallback
string otherwise. -/
theorem manage_animation_failure_normalization (a : AnimationArgs)
    (resp : List (String × PyVal))
    (h : (dictGet resp "success" PyVal.none).truthy = false) :
    manage_animation a (fun _ => SendResult.ok resp) =
      [("success", PyVal.bool false),
       ("message", dictGet resp "error"
          (PyVal.str "An unknown error occurred during animation management."))] := by
  simp [manage_animation, h]

/-- Witness for C4: the two concrete responses named by the claim — an
explicit error string is surfaced verbatim, and a bare failure flag
gets the fallback message. -/
theorem manage_animation_failure_normalization_witness :
    manage_animation exArgs (fun _ => SendResult.ok
        [("success", PyVal.bool false), ("error", PyVal.str "bad target")]) =
      [("success", PyVal.bool false), ("message", PyVal.str "bad target")] ∧
    manage_animation exArgs
        (fun _ => SendResult.ok [("success", PyVal.bool false)]) =
      [("success", PyVal.bool false),
       ("message",
        PyVal.str "An unknown error occurred during animation management.")] :=
  ⟨manage_animation_failure_normalization exArgs
      [("success", PyVal.bool false), ("error", PyVal.str "bad target")] rfl,
   manage_animation_failure_normalization exArgs
      [("success", PyVal.bool false)] rfl⟩

/-- Claim C5: `manage_animation` never raises past its public boundary —
for every argument record and every collaborator behaviour the result
is a normal mapping carrying success and message keys, and when the
collaborator raises an exception with text t the result is exactly the
failure pair whose message is the deterministic local-error prefix
followed by t. -/
theorem manage_animation_total_and_exception_path :
    (∀ (a : AnimationArgs) (send : List (String × PyVal) → SendResult),
       ∃ sv mv, lookupStr (manage_animation a send) "success" = some sv ∧
         lookupStr (manage_animation a send) "message" = some mv) ∧
    (∀ (a : AnimationArgs) (t : String),
       manage_animation a (fun _ => SendResult.exn t) =
         [("success", PyVal.bool false),
          ("message", PyVal.str ("Python error managing animation: " ++ t))]) := by
  constructor
  · intro a send
    rcases manage_animation_shape a send with ⟨m, hm⟩ | ⟨m, d, hm⟩
    · exact ⟨PyVal.bool false, m, by simp [hm, lookupStr],
        by simp [hm, lookupStr]⟩
    · exact ⟨PyVal.bool true, m, by simp [hm, lookupStr],
        by simp [hm, lookupStr]⟩
  · intro a t
    rfl

/-- Counterexample to claim C6: the response whose success flag is the
malformed (non-boolean) value 1 is treated as Success, not Failure —
the code discriminates by Python truthiness, not by boolean type. -/
theorem success_flag_malformed_counterexample :
    manage_animation exArgs
        (fun _ => SendResult.ok [("success", PyVal.int 1)]) =
      [("success", PyVal.bool true),
       ("message", PyVal.str "Animation operation successful."),
       ("data", PyVal.none)] := rfl

/-- Claim C6 as amended: the result is always exactly one of the two
variants, the truthiness of the response's success flag is the sole
discriminator for responses, and a missing or falsy flag yields
Failure, never Success (a truthy non-boolean flag, however, yields
Success). -/
theorem manage_animation_flag_truthiness_discriminator (a : AnimationArgs)
    (resp : List (String × PyVal)) :
    lookupStr (manage_animation a (fun _ => SendResult.ok resp)) "success"
      = some (PyVal.bool ((dictGet resp "success" PyVal.none).truthy)) ∧
    (lookupStr resp "success" = Option.none →
      lookupStr (manage_animation a (fun _ => SendResult.ok resp)) "success"
        = some (PyVal.bool false)) := by
  constructor
  · cases ht : (dictGet resp "success" PyVal.none).truthy with
    | true => simp [manage_animation, ht, lookupStr]
    | false => simp [manage_animation, ht, lookupStr]
  · intro habs
    have hd : dictGet resp "success" PyVal.none = PyVal.none := by
      simp [dictGet, habs]
    simp [manage_animation, hd, PyVal.truthy, lookupStr]

/-- Witness for amended C6: a response with no success key at all is
reported as Failure. -/
theorem manage_animation_flag_truthiness_discriminator_witness :
    lookupStr (manage_animation exArgs (fun _ => SendResult.ok [])) "success"
      = some (PyVal.bool false) :=
  (manage_animation_flag_truthiness_discriminator exArgs []).2 rfl

/-- Claim C7: on every failure outcome — remote-reported falsy flag or
caught local exception — the returned mapping's key list is exactly
success then message, with no data key. -/
theorem manage_animation_failure_key_set :
    (∀ (a : AnimationArgs) (resp : List (String × PyVal)),
       (dictGet resp "success" PyVal.none).truthy = false →
       (manage_animation a (fun _ => SendResult.ok resp)).map Prod.fst
         = ["success", "message"]) ∧
    (∀ (a : AnimationArgs) (t : String),
       (manage_animation a (fun _ => SendResult.exn t)).map Prod.fst
         = ["success", "message"]) := by
  constructor
  · intro a resp h
    simp [manage_animation, h]
  · intro a t
    rfl

/-- Witness for C7: a remote failure and a raised exception both
produce exactly the success and message keys. -/
theorem manage_animation_failure_key_set_witness :
    (manage_animation exArgs
        (fun _ => SendResult.ok [("success", PyVal.bool false)])).map Prod.fst
      = ["success", "message"] ∧
    (manage_animation exArgs
        (fun _ => SendResult.exn "connection lost")).map Prod.fst
      = ["success", "message"] :=
  ⟨manage_animation_failure_key_set.1 exArgs
      [("success", PyVal.bool false)] rfl,
   manage_animation_failure_key_set.2 exArgs "connection lost"⟩

/-- Claim C8: the operation is deterministic and stateless — its result
depends only on the arguments and on the collaborator's extensional
behaviour, so two invocations with identical arguments against
collaborators returning identical responses (or raising identical
exceptions) yield identical results. -/
theorem manage_animation_deterministic (a : AnimationArgs)
    (send1 send2 : List (String × PyVal) → SendResult)
    (h : ∀ p, send1 p = send2 p) :
    manage_animation a send1 = manage_animation a send2 := by
  unfold manage_animation
  rw [h]

/-- Witness for C8: two syntactically distinct collaborators with the
same response give the same result. -/
theorem manage_animation_deterministic_witness :
    manage_animation exArgs
        (fun _ => SendResult.ok [("success", PyVal.bool true)])
      = manage_animation exArgs
          (fun p => SendResult.ok
            (("success", PyVal.bool true) :: p.take 0)) :=
  manage_animation_deterministic exArgs _ _ (fun _ => rfl)

/-- Claim C9 (implicit): the discriminator is Python truthiness of the
success field, not a boolean type check — any response whose success
key holds a truthy value, boolean or not (the number 1, a non-empty
string such as "false", a non-empty dictionary), takes the Success
branch and returns the success triple. -/
theorem manage_animation_truthy_nonbool_success (a : AnimationArgs)
    (resp : List (String × PyVal)) (v : PyVal)
    (hv : lookupStr resp "success" = some v) (ht : v.truthy = true) :
    manage_animation a (fun _ => SendResult.ok resp) =
      [("success", PyVal.bool true),
       ("message", dictGet resp "message"
          (PyVal.str "Animation operation successful.")),
       ("data", dictGet resp "data" PyVal.none)] := by
  have hd : dictGet resp "success" PyVal.none = v := by
    simp [dictGet, hv]
  simp [manage_animation, hd, ht]

/-- Witness for C9: the number 1, the non-empty string "false" and a
non-empty dictionary as success flags all take the Success branch. -/
theorem manage_animation_truthy_nonbool_success_witness :
    manage_animation exArgs (fun _ => SendResult.ok
        [("success", PyVal.int 1), ("data", PyVal.int 7)]) =
      [("success", PyVal.bool true),
       ("message", PyVal.str "Animation operation successful."),
       ("data", PyVal.int 7)] ∧
    manage_animation exArgs (fun _ => SendResult.ok
        [("success", PyVal.str "false")]) =
      [("success", PyVal.bool true),
       ("message", PyVal.str "Animation operation successful."),
       ("data", PyVal.none)] ∧
    manage_animation exArgs (fun _ => SendResult.ok
        [("success", PyVal.dict [("k", PyVal.none)])]) =
      [("success", PyVal.bool true),
       ("message", PyVal.str "Animation operation successful."),
       ("data", PyVal.none)] :=
  ⟨manage_animation_truthy_nonbool_success exArgs
      [("success", PyVal.int 1), ("data", PyVal.int 7)] (PyVal.int 1) rfl rfl,
   manage_animation_truthy_nonbool_success exArgs
      [("success", PyVal.str "false")] (PyVal.str "false") rfl rfl,
   manage_animation_truthy_nonbool_success exArgs
      [("success", PyVal.dict [("k", PyVal.none)])]
      (PyVal.dict [("k", PyVal.none)]) rfl rfl⟩

/-- Claim C10 (implicit): the message fallbacks apply only when the key
is absent, not when it is present with a null value — a success
response carrying message = null yields message null (not the success
fallback), and a failure response carrying error = null yields message
null (not the error fallback). -/
theorem manage_animation_null_message_no_fallback :
    (∀ (a : AnimationArgs) (resp : List (String × PyVal)),
       (dictGet resp "success" PyVal.none).truthy = true →
       lookupStr resp "message" = some PyVal.none →
       lookupStr (manage_animation a (fun _ => SendResult.ok resp)) "message"
         = some PyVal.none) ∧
    (∀ (a : AnimationArgs) (resp : List (String × PyVal)),
       (dictGet resp "success" PyVal.none).truthy = false →
       lookupStr resp "error" = some PyVal.none →
       lookupStr (manage_animation a (fun _ => SendResult.ok resp)) "message"
         = some PyVal.none) := by
  constructor
  · intro a resp hs hm
    have hd : dictGet resp "message"
        (PyVal.str "Animation operation successful.") = PyVal.none := by
      simp [dictGet, hm]
    simp [manage_animation, hs, hd, lookupStr]
  · intro a resp hs he
    have hd : dictGet resp "error"
        (PyVal.str "An unknown error occurred during animation management.")
        = PyVal.none := by
      simp [dictGet, he]
    simp [manage_animation, hs, hd, lookupStr]

/-- Witness for C10: explicit null message on success and explicit null
error on failure are both forwarded as null, bypassing the fallbacks. -/
theorem manage_animation_null_message_no_fallback_witness :
    lookupStr (manage_animation exArgs (fun _ => SendResult.ok
        [("success", PyVal.bool true), ("message", PyVal.none)])) "message"
      = some PyVal.none ∧
    lookupStr (manage_animation exArgs (fun _ => SendResult.ok
        [("success", PyVal.bool false), ("error", PyVal.none)])) "message"
      = some PyVal.none :=
  ⟨manage_animation_null_message_no_fallback.1 exArgs
      [("success", PyVal.bool true), ("message", PyVal.none)] rfl rfl,
   manage_animation_null_message_no_fallback.2 exArgs
      [("success", PyVal.bool false), ("error", PyVal.none)] rfl rfl⟩
